import Mathlib

/-!
Shallow embedding of the ownership-scoped, filterable collection query of
the `recipe-app-api` repository (Django app `traveler`, plus the GraphQL
schemas), together with proofs about the claims of its specification.

Querysets are modelled as lists of rows.  A Django `filter` across a
many-to-many relation is a SQL join and therefore yields one row per
matching association (duplicating the base row); `distinct()` removes
duplicate rows; `order_by` sorts the final query.  Machine integers are
`Nat`, decimal prices are `ℚ`.
-/

/-- A Tag, Location or Ingredient record: `{id, name, owner}`
(models referenced by `traveler/views.py` and `traveler/serializers.py`). -/
structure Attr where
  id : Nat
  name : String
  user : Nat
deriving DecidableEq, Repr

/-- A Spot record with its many-to-many association id lists
(fields from `SpotSerializer`: id, title, locations, tags, time_minutes,
price, link; plus the owning user). -/
structure Spot where
  id : Nat
  title : String
  time_minutes : Nat
  price : ℚ
  link : String
  user : Nat
  tags : List Nat
  locations : List Nat
  ingredients : List Nat
deriving DecidableEq, Repr

/-- Descending-by-name comparison used by `order_by('-name')`. -/
def nameGe (a b : Attr) : Prop := b.name ≤ a.name

instance : DecidableRel nameGe := fun a b =>
  decidable_of_iff (¬a.name < b.name) not_lt

instance : IsTotal Attr nameGe := ⟨fun a b => le_total b.name a.name⟩

instance : IsTrans Attr nameGe := ⟨fun _ _ _ hab hbc => le_trans hbc hab⟩

/-- Descending-by-id comparison (`ORDER BY id DESC`). -/
def idGe (a b : Spot) : Prop := b.id ≤ a.id

instance : DecidableRel idGe := fun a b =>
  (inferInstance : Decidable (b.id ≤ a.id))

instance : IsTotal Spot idGe := ⟨fun a b => Nat.le_total b.id a.id⟩

instance : IsTrans Spot idGe := ⟨fun _ _ _ hab hbc => Nat.le_trans hbc hab⟩

/-- The join produced by `queryset.filter(spot__isnull=False)` on an
attribute queryset: one row per (attribute, associated Spot) pair, so an
attribute linked to several Spots appears several times.  `proj` selects
the association list of the viewset's attribute kind (`Spot.tags` for
tags, `Spot.locations` for locations). -/
def filterAssigned (attrs : List Attr) (spots : List Spot)
    (proj : Spot → List Nat) : List Attr :=
  attrs.flatMap fun a => (spots.filter fun s => a.id ∈ proj s).map fun _ => a

/-- Embedding of `BaseSpotAttrViewSet.get_queryset`
(`traveler/views.py:35-46`): optionally join-restrict to attributes
assigned to at least one Spot, then keep the caller's records, order by
name descending and apply `distinct()`. -/
def attrGetQueryset (attrs : List Attr) (spots : List Spot)
    (proj : Spot → List Nat) (caller : Nat) (assignedOnly : Bool) :
    List Attr :=
  let qs := if assignedOnly then filterAssigned attrs spots proj else attrs
  (List.insertionSort nameGe (qs.filter fun a => a.user = caller)).dedup

/-- Query parameters read by `SpotViewSet.get_queryset`, after
`_params_to_ints` parsing: `none` models a `tags`/`locations` query
parameter that is absent or empty (falsy in Python, so the branch is
skipped).  The request's query dictionary may also carry an
`ingredients` key; `get_queryset` never reads it, so it is recorded here
only to state claims about it. -/
structure SpotFilters where
  tags : Option (List Nat)
  locations : Option (List Nat)
  ingredients : Option (List Nat)
deriving DecidableEq, Repr

/-- The join produced by `queryset.filter(assoc__id__in=ids)` on the spot
queryset: one row per (spot, matching association) pair — a spot with two
matching tags appears twice, since the view applies no `distinct()`. -/
def filterAssocIdIn (spots : List Spot) (proj : Spot → List Nat)
    (ids : List Nat) : List Spot :=
  spots.flatMap fun s => ((proj s).filter fun t => t ∈ ids).map fun _ => s

/-- Embedding of `SpotViewSet.get_queryset` (`traveler/views.py:76-88`):
join-filter by the supplied tag ids, then by the supplied location ids
(no ingredient branch exists in the source), then keep the caller's
spots.

Modelled from the spec: the final `ORDER BY id DESC`.  The model file
`core/models.py` carrying the Spot model is not in the source tree; the
spec (§4.1) states listSpots is ordered descending by id and the test
`test_retrieve_spots` compares against `order_by('-id')`, so the default
model ordering is modelled as a descending-by-id sort of the final
query. -/
def spotsGetQueryset (spots : List Spot) (caller : Nat)
    (p : SpotFilters) : List Spot :=
  let qs := match p.tags with
    | some ids => filterAssocIdIn spots Spot.tags ids
    | none => spots
  let qs := match p.locations with
    | some ids => filterAssocIdIn qs Spot.locations ids
    | none => qs
  List.insertionSort idGe (qs.filter fun s => s.user = caller)

/-- A write payload for `SpotSerializer`; `none` is a field absent from
the request body. -/
structure SpotPayload where
  title : Option String
  time_minutes : Option Nat
  price : Option ℚ
  link : Option String
  tags : Option (List Nat)
  locations : Option (List Nat)

/-- Embedding of an update through `SpotSerializer`
(`traveler/serializers.py:24-41`) for a request that passes validation.
`full = true` is `PUT` (`partial=False`), `full = false` is `PATCH`
(`partial=True`).  A field supplied in the payload replaces the stored
value.  For the `PrimaryKeyRelatedField(many=True)` association lists,
a field missing from a non-partial form request is read as the empty
list, so a full update without `tags`/`locations` clears the
association; a partial update skips missing fields entirely, leaving the
stored association unchanged. -/
def serializerUpdate (s : Spot) (p : SpotPayload) (full : Bool) : Spot :=
  { s with
    title := p.title.getD s.title
    time_minutes := p.time_minutes.getD s.time_minutes
    price := p.price.getD s.price
    link := p.link.getD s.link
    tags := if full then p.tags.getD [] else p.tags.getD s.tags
    locations :=
      if full then p.locations.getD [] else p.locations.getD s.locations }

namespace SpotType

/-- Embedding of `SpotType.resolve_price_rating`
(`traveler/schema.py:13-14`). -/
def resolve_price_rating (price : ℚ) : String :=
  if price < 20 then "Reasonable" else "Expensive"

end SpotType

namespace RecipeType

/-- Embedding of `RecipeType.resolve_price_rating`
(`recipe/schema.py:12-13`), textually the same rule. -/
def resolve_price_rating (price : ℚ) : String :=
  if price < 20 then "Reasonable" else "Expensive"

end RecipeType

/-- A GraphQL execution context: `user = some u` is an authenticated
user `u`, `none` is an anonymous request (`is_authenticated` false). -/
structure GContext where
  user : Option Nat
deriving DecidableEq, Repr

/-- Django's `objects.get(...)`: exactly one matching row, else the
`DoesNotExist` / `MultipleObjectsReturned` exception. -/
def objectsGet (spots : List Spot) (pred : Spot → Bool) :
    Except String Spot :=
  match spots.filter pred with
  | [] => .error "DoesNotExist"
  | [s] => .ok s
  | _ => .error "MultipleObjectsReturned"

/-- Embedding of `Query.resolve_all_spots` (`traveler/schema.py:27-40`),
the resolver served through `app/schema.py`: raise `Auth Fail` for an
unauthenticated context, otherwise return `Spot.objects.all()` — every
stored Spot, with no owner scoping. -/
def resolve_all_spots (ctx : GContext) (spots : List Spot) :
    Except String (List Spot) :=
  match ctx.user with
  | none => .error "Auth Fail"
  | some _ => .ok spots

/-- Embedding of `Query.resolve_spot` (`traveler/schema.py:42-53`): look
up by id if given, else by title if given, else return null.  The
source reads nothing from the request context — in particular it
performs no authentication check — so the context argument is unused. -/
def resolve_spot (_ctx : GContext) (spots : List Spot)
    (idArg : Option Nat) (titleArg : Option String) :
    Except String (Option Spot) :=
  match idArg with
  | some i => (objectsGet spots fun s => s.id = i).map some
  | none =>
    match titleArg with
    | some t => (objectsGet spots fun s => s.title = t).map some
    | none => .ok none

/-- Embedding of `Query.resolve_all_recipes` (`recipe/schema.py:24-37`):
the authentication check is commented out in the source, so every
context — authenticated or not — receives all stored records. -/
def resolve_all_recipes (_ctx : GContext) (spots : List Spot) :
    Except String (List Spot) :=
  .ok spots

/-- A supplied filter dimension is satisfied: if the ids were supplied,
the association list meets at least one of them (vacuous when the
parameter is absent). -/
def dimOk (supplied : Option (List Nat)) (assoc : List Nat) : Prop :=
  ∀ ids, supplied = some ids → ∃ t ∈ assoc, t ∈ ids

/-- A concrete sample spot, mirroring the tests' `sample_spot` helper. -/
def mkSpot (i : Nat) (owner : Nat) (tagIds locIds ingIds : List Nat) :
    Spot :=
  ⟨i, "Sample spot", 10, 5, "", owner, tagIds, locIds, ingIds⟩

theorem mem_filterAssigned {attrs : List Attr} {spots : List Spot}
    {proj : Spot → List Nat} {a : Attr} :
    a ∈ filterAssigned attrs spots proj ↔
      a ∈ attrs ∧ ∃ s ∈ spots, a.id ∈ proj s := by
  simp only [filterAssigned, List.mem_flatMap, List.mem_map,
    List.mem_filter]
  constructor
  · rintro ⟨b, hb, s, ⟨hs, hmem⟩, rfl⟩
    exact ⟨hb, s, hs, by simpa using hmem⟩
  · rintro ⟨hb, s, hs, hmem⟩
    exact ⟨a, hb, s, ⟨hs, by simpa using hmem⟩, rfl⟩

theorem mem_attrGetQueryset {attrs : List Attr} {spots : List Spot}
    {proj : Spot → List Nat} {caller : Nat} {b : Bool} {a : Attr} :
    a ∈ attrGetQueryset attrs spots proj caller b ↔
      (a ∈ if b then filterAssigned attrs spots proj else attrs) ∧
        a.user = caller := by
  simp [attrGetQueryset, List.mem_dedup, List.mem_insertionSort,
    List.mem_filter]

/-- C2: `listOwnedAttributes` returns its records in descending
lexicographic order by name and contains no duplicate records, for every
caller, store state and `assignedOnly` flag (the query ends in
`order_by('-name').distinct()`). -/
theorem listOwnedAttributes_sorted_unique (attrs : List Attr)
    (spots : List Spot) (proj : Spot → List Nat) (caller : Nat)
    (assignedOnly : Bool) :
    List.Sorted nameGe
        (attrGetQueryset attrs spots proj caller assignedOnly) ∧
      (attrGetQueryset attrs spots proj caller assignedOnly).Nodup := by
  constructor
  · exact List.Pairwise.sublist (List.dedup_sublist _)
      (List.sorted_insertionSort nameGe _)
  · exact List.nodup_dedup _

/-- C3: with `assignedOnly = true`, `listOwnedAttributes` returns exactly
the caller-owned attribute records associated with at least one Spot of
any owner; unassigned records are excluded (`filter(spot__isnull=False)`
does not scope the associated Spot to the caller). -/
theorem listOwnedAttributes_assignedOnly_mem (attrs : List Attr)
    (spots : List Spot) (proj : Spot → List Nat) (caller : Nat)
    (a : Attr) :
    a ∈ attrGetQueryset attrs spots proj caller true ↔
      a ∈ attrs ∧ a.user = caller ∧ ∃ s ∈ spots, a.id ∈ proj s := by
  rw [mem_attrGetQueryset]
  simp only [if_true, mem_filterAssigned]
  tauto

theorem mem_filterAssocIdIn {spots : List Spot} {proj : Spot → List Nat}
    {ids : List Nat} {s : Spot} :
    s ∈ filterAssocIdIn spots proj ids ↔
      s ∈ spots ∧ ∃ t ∈ proj s, t ∈ ids := by
  simp only [filterAssocIdIn, List.mem_flatMap, List.mem_map,
    List.mem_filter]
  constructor
  · rintro ⟨x, hx, t, ⟨ht, hmem⟩, rfl⟩
    exact ⟨hx, t, ht, by simpa using hmem⟩
  · rintro ⟨hx, t, ht, hmem⟩
    exact ⟨s, hx, t, ⟨ht, by simpa using hmem⟩, rfl⟩

theorem mem_spotsGetQueryset {spots : List Spot} {caller : Nat}
    {p : SpotFilters} {s : Spot} :
    s ∈ spotsGetQueryset spots caller p ↔
      s ∈ spots ∧ s.user = caller ∧ dimOk p.tags s.tags ∧
        dimOk p.locations s.locations := by
  obtain ⟨t, l, i⟩ := p
  simp only [spotsGetQueryset, List.mem_insertionSort, List.mem_filter,
    decide_eq_true_eq]
  cases t <;> cases l <;>
    simp only [mem_filterAssocIdIn, dimOk] <;>
    simp <;> tauto

/-- C1: with no filters, `listSpots(A, {})` contains only Spots owned by
`A`, and for any other caller `B` never a Spot owned by `B` (the
queryset ends in `filter(user=self.request.user)`). -/
theorem listSpots_owner_scoped (spots : List Spot) (A B : Nat)
    (hAB : A ≠ B) (s : Spot)
    (hs : s ∈ spotsGetQueryset spots A ⟨none, none, none⟩) :
    s.user = A ∧ s.user ≠ B := by
  have h := mem_spotsGetQueryset.mp hs
  exact ⟨h.2.1, by rw [h.2.1]; exact hAB⟩

theorem listSpots_owner_scoped_witness :
    (mkSpot 1 1 [] [] []).user = 1 ∧ (mkSpot 1 1 [] [] []).user ≠ 2 :=
  listSpots_owner_scoped [mkSpot 1 1 [] [] []] 1 2 (by decide) _ (by decide)

/-- C5: the sequence returned by `listSpots` is sorted in descending
order of Spot id, for every caller, store state and filter choice
(spec-modelled ordering: `core/models.py` is absent from the source
tree, and the spec together with `test_retrieve_spots` fixes the
ordering as `ORDER BY id DESC` on the final query). -/
theorem listSpots_sorted_desc_id (spots : List Spot) (caller : Nat)
    (p : SpotFilters) :
    List.Sorted idGe (spotsGetQueryset spots caller p) :=
  List.sorted_insertionSort idGe _

/-- C4 counterexample: a supplied `ingredients` filter is ignored by
`SpotViewSet.get_queryset` — a caller-owned Spot with no ingredient in
the supplied set is still returned, so the claimed
keep-iff-every-supplied-dimension-matches semantics fails for the
ingredientIds dimension. -/
theorem listSpots_ingredient_filter_ignored :
    mkSpot 1 1 [] [] [] ∈
        spotsGetQueryset [mkSpot 1 1 [] [] []] 1 ⟨none, none, some [5]⟩ ∧
      ¬∃ t ∈ (mkSpot 1 1 [] [] []).ingredients, t ∈ [5] := by
  decide

/-- C4 amended: `listSpots` keeps a caller-owned Spot iff, for each
supplied dimension among tagIds and locationIds, the Spot has at least
one association in that set (OR within a set, AND across the two
dimensions); a supplied ingredientIds dimension is not applicable — the
result is independent of it. -/
theorem listSpots_filter_semantics (spots : List Spot) (caller : Nat)
    (p : SpotFilters) (s : Spot) :
    (s ∈ spotsGetQueryset spots caller p ↔
      s ∈ spots ∧ s.user = caller ∧ dimOk p.tags s.tags ∧
        dimOk p.locations s.locations) ∧
    ∀ i, spotsGetQueryset spots caller ⟨p.tags, p.locations, i⟩
        = spotsGetQueryset spots caller p := by
  refine ⟨mem_spotsGetQueryset, fun i => ?_⟩
  obtain ⟨t, l, j⟩ := p
  rfl

/-- C6: `price_rating` is "Reasonable" exactly when price < 20 and
"Expensive" otherwise, identically in both schema variants; in
particular 19.99 rates "Reasonable" and exactly 20.00 rates
"Expensive". -/
theorem price_rating_semantics (p : ℚ) :
    (SpotType.resolve_price_rating p = "Reasonable" ↔ p < 20) ∧
    (SpotType.resolve_price_rating p = "Expensive" ↔ ¬p < 20) ∧
    RecipeType.resolve_price_rating p = SpotType.resolve_price_rating p ∧
    SpotType.resolve_price_rating (19.99 : ℚ) = "Reasonable" ∧
    SpotType.resolve_price_rating (20 : ℚ) = "Expensive" := by
  unfold SpotType.resolve_price_rating RecipeType.resolve_price_rating
  refine ⟨?_, ?_, rfl, ?_, ?_⟩
  · split
    · exact iff_of_true rfl (by assumption)
    · exact iff_of_false (by decide) (by assumption)
  · split
    · exact iff_of_false (by decide) (not_not_intro (by assumption))
    · exact iff_of_true rfl (by assumption)
  · rw [if_pos (by norm_num)]
  · rw [if_neg (by norm_num)]

/-- C7: a full update (PUT) whose payload omits the `tags` list leaves a
previously tagged Spot with zero tags (so its tag set really changes),
while a partial update (PATCH) omitting `tags` leaves the existing tags
unchanged; the omitted `locations` list follows the same rule. -/
theorem update_tags_asymmetry (s : Spot) (p : SpotPayload)
    (htags : p.tags = none) (hne : s.tags ≠ []) :
    (serializerUpdate s p true).tags = [] ∧
    (serializerUpdate s p true).tags ≠ s.tags ∧
    (serializerUpdate s p false).tags = s.tags ∧
    (p.locations = none →
      (serializerUpdate s p true).locations = [] ∧
      (serializerUpdate s p false).locations = s.locations) := by
  refine ⟨?_, ?_, ?_, fun hloc => ⟨?_, ?_⟩⟩ <;>
    simp [serializerUpdate, htags, *]

theorem update_tags_asymmetry_witness :
    (serializerUpdate (mkSpot 1 1 [4] [] [])
        ⟨none, none, none, none, none, none⟩ true).tags = [] ∧
    (serializerUpdate (mkSpot 1 1 [4] [] [])
        ⟨none, none, none, none, none, none⟩ true).tags
      ≠ (mkSpot 1 1 [4] [] []).tags ∧
    (serializerUpdate (mkSpot 1 1 [4] [] [])
        ⟨none, none, none, none, none, none⟩ false).tags
      = (mkSpot 1 1 [4] [] []).tags ∧
    ((⟨none, none, none, none, none, none⟩ : SpotPayload).locations = none →
      (serializerUpdate (mkSpot 1 1 [4] [] [])
          ⟨none, none, none, none, none, none⟩ true).locations = [] ∧
      (serializerUpdate (mkSpot 1 1 [4] [] [])
          ⟨none, none, none, none, none, none⟩ false).locations
        = (mkSpot 1 1 [4] [] []).locations) :=
  update_tags_asymmetry (mkSpot 1 1 [4] [] [])
    ⟨none, none, none, none, none, none⟩ rfl (by decide)

/-- C8 counterexample: an unauthenticated `spot` query returns the
stored Spot instead of raising an authorization failure, so not every
GraphQL query of the served schema requires authentication. -/
theorem graphql_spot_unauthenticated_returns_data :
    resolve_spot ⟨none⟩ [mkSpot 1 1 [] [] []] (some 1) none
      = .ok (some (mkSpot 1 1 [] [] [])) := rfl

/-- C8 amended: an unauthenticated `allSpots` query raises the
authorization failure `Auth Fail`, but the `spot` query performs no
authentication check — its result is independent of the request
context, so an unauthenticated `spot` lookup returns data. -/
theorem graphql_auth_allspots_only (spots : List Spot) (ctx : GContext)
    (h : ctx.user = none) :
    resolve_all_spots ctx spots = .error "Auth Fail" ∧
    ∀ (ctx' : GContext) (idArg : Option Nat) (titleArg : Option String),
      resolve_spot ctx spots idArg titleArg
        = resolve_spot ctx' spots idArg titleArg := by
  constructor
  · unfold resolve_all_spots
    rw [h]
  · intro ctx' idArg titleArg
    rfl

theorem graphql_auth_allspots_only_witness :
    resolve_all_spots ⟨none⟩ [mkSpot 1 1 [] [] []] = .error "Auth Fail" ∧
    resolve_spot ⟨none⟩ [mkSpot 1 1 [] [] []] (some 1) none
      = resolve_spot ⟨some 7⟩ [mkSpot 1 1 [] [] []] (some 1) none :=
  ⟨(graphql_auth_allspots_only [mkSpot 1 1 [] [] []] ⟨none⟩ rfl).1,
   (graphql_auth_allspots_only [mkSpot 1 1 [] [] []] ⟨none⟩ rfl).2
     ⟨some 7⟩ (some 1) none⟩

/-- C9: for every authenticated caller, `allSpots` returns every stored
Spot regardless of owner, so a Spot owned by another user is included in
the result — the GraphQL list read is not ownership-scoped, unlike the
REST list endpoints. -/
theorem graphql_all_spots_unscoped (spots : List Spot) (u : Nat) :
    resolve_all_spots ⟨some u⟩ spots = .ok spots ∧
    ∀ s ∈ spots, s.user ≠ u →
      ∃ l, resolve_all_spots ⟨some u⟩ spots = .ok l ∧ s ∈ l :=
  ⟨rfl, fun _ hs _ => ⟨spots, rfl, hs⟩⟩

theorem insertionSort_pair_self (a : Attr) :
    List.insertionSort nameGe [a, a] = [a, a] := by
  by_cases h : nameGe a a <;>
    simp [List.insertionSort, List.orderedInsert, h]

/-- C10: the filtered spot list applies no distinct step — a
caller-owned Spot carrying two tags that are both in the supplied tag
filter appears twice in the result, while the attribute query's
`distinct()` collapses the corresponding duplication. -/
theorem listSpots_duplicates_under_filter :
    spotsGetQueryset [mkSpot 1 7 [1, 2] [] []] 7 ⟨some [1, 2], none, none⟩
      = [mkSpot 1 7 [1, 2] [] [], mkSpot 1 7 [1, 2] [] []] ∧
    attrGetQueryset [⟨1, "Dance", 7⟩]
        [mkSpot 1 7 [1] [] [], mkSpot 2 7 [1] [] []] Spot.tags 7 true
      = [⟨1, "Dance", 7⟩] := by
  constructor
  · rfl
  · show (List.insertionSort nameGe
        [⟨1, "Dance", 7⟩, ⟨1, "Dance", 7⟩]).dedup = [⟨1, "Dance", 7⟩]
    rw [insertionSort_pair_self]
    rfl
